import Mathlib

/-!
# Verification of `upatcher.py` (UMPD-Patcher)

A shallow embedding of `src/upatcher.py`, a linear six-stage pipeline that
downloads two Android packages, decompiles them, swaps a native library,
recompiles, signs, renames the outputs and bundles them into an archive.

Modelling choices:

* The filesystem is a finite association list from path strings to file
  contents (`FS.files`) together with a list of existing directories
  (`FS.dirs`).  File contents are `Data`: raw bytes or a zip archive of
  named entries (the denotation of what `zipfile.ZipFile` writes).
* A `World` is the filesystem plus the lines printed so far (`out`) and
  the journal of external commands handed to `subprocess.run` (`journal`).
* External processes are an oracle `Env`: `exec` gives each command's
  `CmdResult` (returncode / stdout / stderr) and `effect` gives the
  command's action on the filesystem; the effect is applied when the
  process runs, before its exit code is inspected, exactly as
  `subprocess.run` behaves.
* Python exceptions become `Except (PyErr × World)`: an error carries the
  world at the point of the raise, so post-failure filesystem state is
  observable.
* `os.walk`-based archive creation is modelled twice, faithfully to both
  views of the code: `create_xapk` recurses over an explicit directory
  tree (`Tree`/`Forest`, mirroring the `for root, _, files in os.walk`
  loop), and `create_xapk_fs` gives the same operation's action on the
  flat filesystem inside the pipeline (every file whose path lies under
  the folder is written under its relative path).
-/

namespace UPatcher

/-- File contents: raw bytes, or a zip archive of named entries (what
`zipfile.ZipFile(...,'w')` produces from writing a sequence of files). -/
inductive Data where
  | bytes (bs : List Nat) : Data
  | zipArchive (entries : List (String × Data)) : Data

/-- A filesystem: an association list of files (path, contents) and the
set of directories, as a list of path strings. -/
structure FS where
  files : List (String × Data)
  dirs : List String

/-- The world the script acts on: the filesystem, the lines printed to
standard output so far, and the journal of commands passed to
`subprocess.run`, in order of invocation. -/
structure World where
  fs : FS
  out : List String
  journal : List (List String)

/-- Result of `subprocess.run(command, capture_output=True, text=True)`. -/
structure CmdResult where
  returncode : Int
  stdout : String
  stderr : String

/-- Oracle for external processes: `exec` is the observed result of a
command, `effect` is the command's action on the filesystem (applied when
the process runs, whatever its exit code turns out to be). -/
structure Env where
  exec : List String → CmdResult
  effect : List String → FS → FS

/-- The Python exceptions raised by `upatcher.py`: `RuntimeError` from
`run_command` (the spec's `CommandFailure`) and `FileNotFoundError` (the
spec's `MissingCredential` / `MissingSignedArtifact`), each carrying
`str(e)`. -/
inductive PyErr where
  | runtimeError (msg : String) : PyErr
  | fileNotFoundError (msg : String) : PyErr
deriving DecidableEq

/-- `str(e)` of a `PyErr`. -/
def errMsg : PyErr → String
  | .runtimeError m => m
  | .fileNotFoundError m => m

/-- Look a path up in the file list. -/
def getF : List (String × Data) → String → Option Data
  | [], _ => none
  | (k, v) :: rest, p => if k = p then some v else getF rest p

/-- Write a file: overwrite the existing entry or append a new one. -/
def setF : List (String × Data) → String → Data → List (String × Data)
  | [], p, d => [(p, d)]
  | (k, v) :: rest, p, d => if k = p then (p, d) :: rest else (k, v) :: setF rest p d

/-- Delete a file entry. -/
def delF : List (String × Data) → String → List (String × Data)
  | [], _ => []
  | (k, v) :: rest, p => if k = p then delF rest p else (k, v) :: delF rest p

/-- `os.path.exists`: true for an existing file or an existing directory. -/
def fsExists (fs : FS) (p : String) : Bool :=
  (getF fs.files p).isSome || fs.dirs.contains p

/-- `os.makedirs(d, exist_ok=True)` (parents of `d` are not modelled;
the script only creates directories whose parents exist). -/
def osMakedirs (fs : FS) (d : String) : FS :=
  if fs.dirs.contains d then fs else { fs with dirs := d :: fs.dirs }

/-- `os.rename(src, dst)`: move a file (or a directory name), raising
`FileNotFoundError` when the source does not exist. -/
def osRename (fs : FS) (src dst : String) : Except PyErr FS :=
  match getF fs.files src with
  | some c => .ok { fs with files := setF (delF fs.files src) dst c }
  | none =>
    if fs.dirs.contains src then
      .ok { fs with dirs := dst :: (fs.dirs.filter (fun d => decide (d ≠ src))) }
    else
      .error (.fileNotFoundError ("No such file or directory: " ++ src))

/-- `print(s)`: append one line to standard output. -/
def pr (w : World) (s : String) : World :=
  { w with out := w.out ++ [s] }

/-- `os.rename` lifted to the world, attaching the world to the raise. -/
def osRenameW (w : World) (src dst : String) : Except (PyErr × World) World :=
  match osRename w.fs src dst with
  | .ok fs => .ok { w with fs := fs }
  | .error e => .error (e, w)

/-- `os.path.join(a, b)` for a relative second component. -/
def pathJoin (a b : String) : String :=
  a ++ "/" ++ b

/-- `' '.join(command)`. -/
def joinSpace (l : List String) : String :=
  String.intercalate " " l

/-- `"-" * 30`. -/
def sepLine : String :=
  "------------------------------"

/-- `run_command(command, error_message)`: print the command, run the
external process (its filesystem effect happens now), then either raise
`RuntimeError(f"{error_message}: {result.stderr}")` on a nonzero exit
code or print stdout and return. -/
def run_command (env : Env) (command : List String) (error_message : String)
    (w : World) : Except (PyErr × World) World :=
  let w1 := pr w ("Executing: " ++ joinSpace command)
  let w1 := { w1 with journal := w1.journal ++ [command] }
  let result := env.exec command
  let w2 := { w1 with fs := env.effect command w1.fs }
  if result.returncode ≠ 0 then
    .error (.runtimeError (error_message ++ ": " ++ result.stderr),
            pr w2 ("Command failed! Stderr: " ++ result.stderr))
  else
    .ok (pr (pr w2 result.stdout) "Command successful.")

/-- `setup_environment(keystore_url)`: install tooling and download the
signing keystore; returns the keystore's local filename. -/
def setup_environment (env : Env) (keystore_url : String) (w : World) :
    Except (PyErr × World) (String × World) := do
  let w := pr w "Setting up the environment..."
  let w ← run_command env ["sudo", "apt-get", "update"] "Failed to update apt" w
  let w ← run_command env ["sudo", "apt-get", "install", "openjdk-8-jre-headless", "-y"]
    "Failed to install OpenJDK 8" w
  let apktool_url := "https://raw.githubusercontent.com/iBotPeaches/Apktool/master/scripts/linux/apktool"
  let apktool_jar_url := "https://bitbucket.org/iBotPeaches/apktool/downloads/apktool_2.9.3.jar"
  let w ← run_command env ["wget", "-q", apktool_url, "-O", "apktool"]
    "Failed to download apktool script" w
  let w ← run_command env ["wget", "-q", apktool_jar_url, "-O", "apktool.jar"]
    "Failed to download apktool JAR" w
  let w := { w with fs := osMakedirs w.fs "/usr/local/bin" }
  let w ← osRenameW w "apktool" "/usr/local/bin/apktool"
  let w ← osRenameW w "apktool.jar" "/usr/local/bin/apktool.jar"
  let w ← run_command env ["sudo", "chmod", "+x", "/usr/local/bin/apktool"]
    "Failed to set execute permissions on apktool script" w
  let uber_signer_url := "https://github.com/patrickfav/uber-apk-signer/releases/download/v1.3.0/uber-apk-signer-1.3.0.jar"
  let w ← run_command env ["wget", "-q", uber_signer_url, "-O", "uber-apk-signer.jar"]
    "Failed to download uber-apk-signer" w
  let keystore_filename := "debug.keystore"
  let w ← run_command env ["wget", "-q", keystore_url, "-O", keystore_filename]
    "Failed to download debug.keystore" w
  let w := pr w "Environment setup complete!"
  let w := pr w sepLine
  .ok (keystore_filename, w)

/-- `download_and_decompile(base_apk_dlink, split_apk_dlink)`: download the
two packages and decompile each; returns the two decompile folder names. -/
def download_and_decompile (env : Env) (base_apk_dlink split_apk_dlink : String)
    (w : World) : Except (PyErr × World) (String × String × World) := do
  let w := pr w "Downloading and decompiling APKs..."
  let w ← run_command env ["wget", "-q", base_apk_dlink, "-O", "base.apk"]
    "Failed to download base APK" w
  let w ← run_command env ["wget", "-q", split_apk_dlink, "-O", "split.apk"]
    "Failed to download split APK" w
  let w ← run_command env ["apktool", "d", "base.apk"] "Failed to decompile base APK" w
  let w ← run_command env ["apktool", "d", "split.apk"] "Failed to decompile split APK" w
  let base_decompile_folder := "base"
  let split_decompile_folder := "split"
  let w := pr w ("Decompiled base to: " ++ base_decompile_folder)
  let w := pr w ("Decompiled split to: " ++ split_decompile_folder)
  let w := pr w "Decompilation complete!"
  let w := pr w sepLine
  .ok (base_decompile_folder, split_decompile_folder, w)

/-- `modify_files(libmain_url, split_decompile_folder)`: if the original
native library exists, rename it to the backup name; then download the
replacement to the original path. -/
def modify_files (env : Env) (libmain_url split_decompile_folder : String)
    (w : World) : Except (PyErr × World) World := do
  let w := pr w "🛠️ Modifying files..."
  let mod_dir := pathJoin split_decompile_folder "lib/arm64-v8a"
  let orig_file := pathJoin mod_dir "libmain.so"
  let new_orig_file := pathJoin mod_dir "libmain_orig.so"
  let mod_file_path := pathJoin mod_dir "libmain.so"
  let w ←
    if fsExists w.fs orig_file then do
      let w ← osRenameW w orig_file new_orig_file
      pure (pr w ("Renamed " ++ orig_file ++ " to " ++ new_orig_file))
    else
      pure w
  let w ← run_command env ["wget", "-q", libmain_url, "-O", mod_file_path]
    "Failed to download modded libmain.so" w
  let w := pr w "File modification complete!"
  let w := pr w sepLine
  .ok w

/-- `recompile_and_sign(base_folder, split_folder, output_dir,
keystore_path)`: repackage both trees, check the keystore exists, then
sign both packages with the fixed debug-keystore credentials. -/
def recompile_and_sign (env : Env) (base_folder split_folder output_dir keystore_path : String)
    (w : World) : Except (PyErr × World) World := do
  let w := pr w "Recompiling and signing APKs..."
  let base_out_path := pathJoin output_dir "base_recompiled.apk"
  let split_out_path := pathJoin output_dir "split_recompiled.apk"
  let w ← run_command env ["apktool", "b", base_folder, "-o", base_out_path]
    "Failed to recompile base APK" w
  let w ← run_command env ["apktool", "b", split_folder, "-o", split_out_path]
    "Failed to recompile split APK" w
  if !(fsExists w.fs keystore_path) then
    .error (.fileNotFoundError ("Keystore not found: " ++ keystore_path), w)
  else
    let keystore_alias := "androiddebugkey"
    let keystore_pass := "android"
    let key_pass := "android"
    let w ← run_command env
      ["java", "-jar", "uber-apk-signer.jar", "--apks", base_out_path,
       "--ks", keystore_path, "--ksAlias", keystore_alias,
       "--ksPass", keystore_pass, "--ksKeyPass", key_pass]
      "Failed to sign base APK with custom debug.keystore" w
    let w ← run_command env
      ["java", "-jar", "uber-apk-signer.jar", "--apks", split_out_path,
       "--ks", keystore_path, "--ksAlias", keystore_alias,
       "--ksPass", keystore_pass, "--ksKeyPass", key_pass]
      "Failed to sign split APK with custom debug.keystore" w
    let w := pr w "Recompilation and signing complete!"
    let w := pr w sepLine
    .ok w

/-- `finalize_apks(directory)`: compute the signer's expected output
paths, create the final directory, check both signed files exist (raising
`FileNotFoundError` naming the missing one otherwise), then move both
into the final directory under their canonical names. -/
def finalize_apks (directory : String) (w : World) :
    Except (PyErr × World) World := do
  let w := pr w "Finalizing APKs..."
  let signed_base := pathJoin directory "base_recompiled-aligned-signed.apk"
  let signed_split := pathJoin directory "split_recompiled-aligned-signed.apk"
  let final_dir := pathJoin directory "final"
  let w := { w with fs := osMakedirs w.fs final_dir }
  if !(fsExists w.fs signed_base) then
    .error (.fileNotFoundError
      ("Missing signed base APK: " ++ signed_base ++ ". Check uber-apk-signer output name."), w)
  else if !(fsExists w.fs signed_split) then
    .error (.fileNotFoundError
      ("Missing signed split APK: " ++ signed_split ++ ". Check uber-apk-signer output name."), w)
  else do
    let w ← osRenameW w signed_base (pathJoin final_dir "base.apk")
    let w ← osRenameW w signed_split (pathJoin final_dir "config.arm64_v8a.apk")
    let w := pr w "Finalization complete!"
    let w := pr w sepLine
    .ok w

/-- `os.path.relpath(p, start)` for a path `p` lying under `start`:
strip `start` and the following separator. -/
def relpath (p start : String) : String :=
  p.drop (start.length + 1)

/-- The files lying strictly under `folder` in a flat file list, keyed by
their path relative to `folder` (the denotation of `os.walk(folder)`). -/
def filesUnder (files : List (String × Data)) (folder : String) : List (String × Data) :=
  files.filterMap (fun kv =>
    if (folder ++ "/").isPrefixOf kv.1 then some (relpath kv.1 folder, kv.2) else none)

/-- `create_xapk(folder_path, output_xapk_path)` as it acts on the flat
filesystem inside the pipeline: write a zip archive holding every file
under `folder_path` under its relative path, overwriting any existing
archive. -/
def create_xapk_fs (folder_path output_xapk_path : String) (w : World) : World :=
  let w := pr w "Building XAPK file..."
  let entries := filesUnder w.fs.files folder_path
  let w := { w with fs := { w.fs with files := setF w.fs.files output_xapk_path (.zipArchive entries) } }
  let w := pr w ("XAPK file created: " ++ output_xapk_path)
  pr w sepLine

/-- The body of `main`'s `try:` block: the six stages in order, with the
fixed arguments `main` passes them. -/
def runPipeline (env : Env) (baseapk_dlink splitapk_dlink libmain_url keystore_url : String)
    (final_output_dir output_xapk_name : String) (w : World) :
    Except (PyErr × World) World := do
  let (keystore_path, w) ← setup_environment env keystore_url w
  let (base_decompile_dir, split_decompile_dir, w) ←
    download_and_decompile env baseapk_dlink splitapk_dlink w
  let w ← modify_files env libmain_url split_decompile_dir w
  let w ← recompile_and_sign env base_decompile_dir split_decompile_dir "." keystore_path w
  let w ← finalize_apks "." w
  let w := create_xapk_fs final_output_dir output_xapk_name w
  .ok (pr w "Process complete! The patched XAPK is ready.")

/-- `main()`: run the pipeline; on success return exit code `0`, on any
caught exception print `An error occurred: {e}` and exit with code `1`. -/
def main (env : Env) (baseapk_dlink splitapk_dlink libmain_url keystore_url : String)
    (w : World) : Nat × World :=
  let final_output_dir := "./final"
  let output_xapk_name := "umamusume.xapk"
  match runPipeline env baseapk_dlink splitapk_dlink libmain_url keystore_url
      final_output_dir output_xapk_name w with
  | .ok w => (0, w)
  | .error (e, w) => (1, pr w ("An error occurred: " ++ errMsg e))

/- A directory tree as `os.walk` sees it: a node holds the plain files
in the directory and the named subdirectories. -/
mutual
inductive Tree where
  | node (files : List (String × Data)) (subs : Forest) : Tree
inductive Forest where
  | nil : Forest
  | cons (name : String) (tree : Tree) (rest : Forest) : Forest
end

/- `os.walk(root)` (top-down, default order): yield `(root, files)` for
the directory itself, then recurse into each subdirectory in order.  The
`dirnames` component is dropped, as the code ignores it. -/
mutual
def Tree.walk (root : String) : Tree → List (String × List (String × Data))
  | .node files subs => (root, files) :: Forest.walkAll root subs
def Forest.walkAll (root : String) : Forest → List (String × List (String × Data))
  | .nil => []
  | .cons d t rest => Tree.walk (pathJoin root d) t ++ Forest.walkAll root rest
end

/-- The body of the `for root, _, files in os.walk(folder_path)` loop of
`create_xapk`: for each walked directory, write each of its files under
`os.path.relpath(os.path.join(root, file), folder_path)`. -/
def zipEntries (folder_path : String)
    (walked : List (String × List (String × Data))) : List (String × Data) :=
  walked.flatMap (fun rootFiles =>
    rootFiles.2.map (fun fc =>
      let file_path := pathJoin rootFiles.1 fc.1
      (relpath file_path folder_path, fc.2)))

/-- `create_xapk(folder_path, output_xapk_path)` over an explicit
directory tree: the list of archive entries the `os.walk` loop writes
into the new zip file, in order. -/
def create_xapk (folder_path : String) (t : Tree) : List (String × Data) :=
  zipEntries folder_path (Tree.walk folder_path t)

/- Each file of a tree keyed by its path relative to the tree's root
(the reference point the Bundle claim compares archive entries to). -/
mutual
def Tree.relFiles : Tree → List (String × Data)
  | .node files subs => files ++ Forest.relFilesAll subs
def Forest.relFilesAll : Forest → List (String × Data)
  | .nil => []
  | .cons d t rest =>
    (Tree.relFiles t).map (fun pc => (d ++ "/" ++ pc.1, pc.2)) ++ Forest.relFilesAll rest
end

/- Number of files in a tree, at all depths. -/
mutual
def Tree.countFiles : Tree → Nat
  | .node files subs => files.length + Forest.countFilesAll subs
def Forest.countFilesAll : Forest → Nat
  | .nil => 0
  | .cons _ t rest => Tree.countFiles t + Forest.countFilesAll rest
end

/-- The world a stage left behind, whether it returned or raised. -/
def outcomeWorld : Except (PyErr × World) World → World
  | .ok w => w
  | .error (_, w) => w

/-- The message of the exception a computation raised, if it raised. -/
def raisedMsg {α : Type} : Except (PyErr × World) α → Option String
  | .ok _ => none
  | .error (e, _) => some (errMsg e)

/-- Whether a computation raised. -/
def isErr {α : Type} : Except (PyErr × World) α → Bool
  | .ok _ => false
  | .error _ => true

/-- The exception a computation raised, if it raised. -/
def raisedErr {α : Type} : Except (PyErr × World) α → Option PyErr
  | .ok _ => none
  | .error (e, _) => some e

/-- `needle` occurs as a contiguous substring of `hay`. -/
def strContains (hay needle : String) : Prop :=
  ∃ a b, hay = a ++ needle ++ b

/-- Sample contents served for a URL in the concrete test environment. -/
def demoDownload (u : String) : List Nat :=
  [117, u.length]

/-- Filesystem effects of the external tools in the concrete test
environment: `wget -q U -O P` writes the served contents of `U` to `P`;
`apktool b _ -o P` writes a package file at `P`; the signer writes
`X-aligned-signed.apk` next to its input `X.apk`; everything else leaves
the filesystem alone. -/
def demoEffect (cmd : List String) (fs : FS) : FS :=
  match cmd with
  | ["wget", "-q", u, "-O", p] =>
    { fs with files := setF fs.files p (.bytes (demoDownload u)) }
  | ["apktool", "b", _, "-o", p] =>
    { fs with files := setF fs.files p (.bytes [0]) }
  | "java" :: "-jar" :: "uber-apk-signer.jar" :: "--apks" :: p :: _ =>
    { fs with files := setF fs.files (p.dropRight 4 ++ "-aligned-signed.apk") (.bytes [1]) }
  | _ => fs

/-- Concrete environment in which every external command succeeds and
has the standard effect. -/
def demoEnv : Env :=
  { exec := fun _ => { returncode := 0, stdout := "", stderr := "" },
    effect := demoEffect }

/-- Concrete environment in which every external command exits `1` with
stderr `boom` and no filesystem effect. -/
def failEnv : Env :=
  { exec := fun _ => { returncode := 1, stdout := "", stderr := "boom" },
    effect := fun _ fs => fs }

/-- The empty world. -/
def emptyW : World :=
  { fs := { files := [], dirs := [] }, out := [], journal := [] }

/-! ## Helper lemmas -/

theorem str_drop_append (s t : String) : (s ++ t).drop s.length = t := by
  apply String.ext
  rw [String.data_drop, String.data_append]
  have h : s.length = s.data.length := rfl
  rw [h, List.drop_left]

theorem relpath_pathJoin (a b : String) : relpath (pathJoin a b) a = b := by
  unfold relpath pathJoin
  have h1 : a ++ "/" ++ b = (a ++ "/") ++ b := rfl
  have h2 : (a ++ "/").length = a.length + 1 := by
    rw [String.length_append]
    rfl
  rw [h1, ← h2, str_drop_append]

theorem pathJoin_assoc (a b c : String) :
    pathJoin (pathJoin a b) c = pathJoin a (b ++ "/" ++ c) := by
  simp [pathJoin, String.append_assoc]

theorem str_append_left_cancel {a x y : String} (h : a ++ x = a ++ y) : x = y := by
  apply String.ext
  have h2 := congrArg String.data h
  rw [String.data_append, String.data_append] at h2
  exact List.append_cancel_left h2

theorem pathJoin_ne (a : String) {b c : String} (h : b ≠ c) :
    pathJoin a b ≠ pathJoin a c := by
  intro he
  exact h (str_append_left_cancel (x := b) (y := c) he)

theorem strContains_of_eq (a n b : String) : strContains (a ++ n ++ b) n :=
  ⟨a, b, rfl⟩

theorem getF_setF_self (l : List (String × Data)) (p : String) (d : Data) :
    getF (setF l p d) p = some d := by
  induction l with
  | nil => simp [setF, getF]
  | cons kv rest ih =>
    obtain ⟨k, v⟩ := kv
    by_cases h : k = p
    · simp [setF, h, getF]
    · simp [setF, h, getF, ih]

theorem getF_setF_ne (l : List (String × Data)) {p q : String} (d : Data) (h : q ≠ p) :
    getF (setF l p d) q = getF l q := by
  induction l with
  | nil => simp [setF, getF, Ne.symm h]
  | cons kv rest ih =>
    obtain ⟨k, v⟩ := kv
    by_cases hk : k = p
    · subst hk
      simp [setF, getF, Ne.symm h]
    · simp [setF, hk, getF, ih]

theorem getF_delF_self (l : List (String × Data)) (p : String) :
    getF (delF l p) p = none := by
  induction l with
  | nil => simp [delF, getF]
  | cons kv rest ih =>
    obtain ⟨k, v⟩ := kv
    by_cases h : k = p
    · simpa [delF, h] using ih
    · simp [delF, h, getF, ih]

theorem getF_delF_ne (l : List (String × Data)) {p q : String} (h : q ≠ p) :
    getF (delF l p) q = getF l q := by
  induction l with
  | nil => simp [delF, getF]
  | cons kv rest ih =>
    obtain ⟨k, v⟩ := kv
    by_cases hk : k = p
    · subst hk
      simp [delF, getF, ih, Ne.symm h]
    · simp [delF, hk, getF, ih]

theorem fsExists_of_getF {fs : FS} {p : String} {d : Data}
    (h : getF fs.files p = some d) : fsExists fs p = true := by
  simp [fsExists, h]

theorem osMakedirs_files (fs : FS) (d : String) :
    (osMakedirs fs d).files = fs.files := by
  unfold osMakedirs
  split <;> rfl

theorem osMakedirs_contains_self (fs : FS) (d : String) :
    (osMakedirs fs d).dirs.contains d = true := by
  unfold osMakedirs
  split
  · assumption
  · simp [List.contains_cons]

theorem fsExists_osMakedirs_ne {fs : FS} {d p : String} (h : p ≠ d) :
    fsExists (osMakedirs fs d) p = fsExists fs p := by
  unfold osMakedirs fsExists
  split
  · rfl
  · simp [List.contains_cons, h]

theorem run_command_ok (env : Env) (cmd : List String) (m : String) (w : World)
    (h : (env.exec cmd).returncode = 0) :
    run_command env cmd m w = .ok
      { fs := env.effect cmd w.fs,
        out := w.out ++ ["Executing: " ++ joinSpace cmd, (env.exec cmd).stdout,
                         "Command successful."],
        journal := w.journal ++ [cmd] } := by
  simp [run_command, pr, h]

theorem run_command_fail (env : Env) (cmd : List String) (m : String) (w : World)
    (h : (env.exec cmd).returncode ≠ 0) :
    run_command env cmd m w = .error
      (.runtimeError (m ++ ": " ++ (env.exec cmd).stderr),
       { fs := env.effect cmd w.fs,
         out := w.out ++ ["Executing: " ++ joinSpace cmd,
                          "Command failed! Stderr: " ++ (env.exec cmd).stderr],
         journal := w.journal ++ [cmd] }) := by
  simp [run_command, pr, h]

theorem osRenameW_file (w : World) {src : String} (dst : String) {c : Data}
    (h : getF w.fs.files src = some c) :
    osRenameW w src dst =
      .ok { w with fs := { w.fs with files := setF (delF w.fs.files src) dst c } } := by
  unfold osRenameW osRename
  rw [h]

/-! ## Claim C1: the Command Runner's error contract -/

/-- C1: for every command invocation through `run_command`, a nonzero
exit code of the external process raises a `CommandFailure`
(`RuntimeError`) whose message contains both the caller-supplied
description and the captured stderr text, and a zero exit code returns
normally without raising. -/
theorem run_command_error_contract (env : Env) (command : List String)
    (error_message : String) (w : World) :
    ((env.exec command).returncode ≠ 0 →
      raisedErr (run_command env command error_message w) =
        some (.runtimeError (error_message ++ ": " ++ (env.exec command).stderr)) ∧
      strContains (error_message ++ ": " ++ (env.exec command).stderr) error_message ∧
      strContains (error_message ++ ": " ++ (env.exec command).stderr)
        (env.exec command).stderr) ∧
    ((env.exec command).returncode = 0 →
      isErr (run_command env command error_message w) = false) := by
  constructor
  · intro h
    refine ⟨?_, ?_, ?_⟩
    · rw [run_command_fail env command error_message w h]
      rfl
    · exact ⟨"", ": " ++ (env.exec command).stderr, by
        rw [String.empty_append, String.append_assoc]⟩
    · exact ⟨error_message ++ ": ", "", by
        rw [String.append_empty]⟩
  · intro h
    rw [run_command_ok env command error_message w h]
    rfl

/-- Witness for C1 at concrete inputs: under `failEnv` (exit code `1`,
stderr `boom`) the runner raises `RuntimeError` with the description and
stderr in the message; under `demoEnv` (exit code `0`) it returns
normally. -/
theorem run_command_error_contract_witness :
    raisedErr (run_command failEnv ["tool", "arg"] "Failed to frob" emptyW) =
      some (.runtimeError "Failed to frob: boom") ∧
    isErr (run_command demoEnv ["tool", "arg"] "Failed to frob" emptyW) = false := by
  constructor
  · have h := (run_command_error_contract failEnv ["tool", "arg"] "Failed to frob" emptyW).1
      (by decide)
    exact h.1
  · exact (run_command_error_contract demoEnv ["tool", "arg"] "Failed to frob" emptyW).2 rfl

/-! ## Claims C2 and C5: native-library substitution -/

/-- C2: when the original native library exists at the fixed relative
path and the replacement download succeeds, after `modify_files` both the
backup-named file and the new file exist, the new file's contents equal
the downloaded replacement's contents, and the backup's contents equal
the pre-substitution original's. -/
theorem modify_files_backup_and_replace (env : Env)
    (libmain_url split_decompile_folder : String) (w : World) (c : Data) (dl : List Nat)
    (horig : getF w.fs.files
      (pathJoin (pathJoin split_decompile_folder "lib/arm64-v8a") "libmain.so") = some c)
    (hrc : (env.exec ["wget", "-q", libmain_url, "-O",
      pathJoin (pathJoin split_decompile_folder "lib/arm64-v8a") "libmain.so"]).returncode = 0)
    (heff : ∀ fs, env.effect ["wget", "-q", libmain_url, "-O",
        pathJoin (pathJoin split_decompile_folder "lib/arm64-v8a") "libmain.so"] fs =
      { fs with files := setF fs.files
                    (pathJoin (pathJoin split_decompile_folder "lib/arm64-v8a") "libmain.so")
                    (.bytes dl) }) :
    isErr (modify_files env libmain_url split_decompile_folder w) = false ∧
    getF (outcomeWorld (modify_files env libmain_url split_decompile_folder w)).fs.files
      (pathJoin (pathJoin split_decompile_folder "lib/arm64-v8a") "libmain_orig.so") =
      some c ∧
    getF (outcomeWorld (modify_files env libmain_url split_decompile_folder w)).fs.files
      (pathJoin (pathJoin split_decompile_folder "lib/arm64-v8a") "libmain.so") =
      some (.bytes dl) := by
  have hne : pathJoin (pathJoin split_decompile_folder "lib/arm64-v8a") "libmain_orig.so" ≠
      pathJoin (pathJoin split_decompile_folder "lib/arm64-v8a") "libmain.so" :=
    pathJoin_ne _ (by decide)
  have h1 : fsExists w.fs
      (pathJoin (pathJoin split_decompile_folder "lib/arm64-v8a") "libmain.so") = true :=
    fsExists_of_getF horig
  refine ⟨?_, ?_, ?_⟩ <;>
    simp only [modify_files, run_command, osRenameW, osRename, pr, bind, Except.bind,
      pure, Except.pure, h1, horig, hrc, heff, if_true] <;>
    simp only [ne_eq, not_true_eq_false, if_false, ite_self, eq_self_iff_true,
      not_true, isErr, outcomeWorld, ne_self_iff_false]
  · rw [getF_setF_ne _ _ hne, getF_setF_self]
  · rw [getF_setF_self]

/-- Witness for C2 at concrete inputs: a world holding the original
library at `split/lib/arm64-v8a/libmain.so` with contents `[9]`; after
the operation the backup holds `[9]` and the original path holds the
downloaded bytes. -/
theorem modify_files_backup_and_replace_witness :
    isErr (modify_files demoEnv "mod-url" "split"
      { fs := { files := [("split/lib/arm64-v8a/libmain.so", .bytes [9])], dirs := [] },
        out := [], journal := [] }) = false ∧
    getF (outcomeWorld (modify_files demoEnv "mod-url" "split"
      { fs := { files := [("split/lib/arm64-v8a/libmain.so", .bytes [9])], dirs := [] },
        out := [], journal := [] })).fs.files "split/lib/arm64-v8a/libmain_orig.so" =
      some (.bytes [9]) ∧
    getF (outcomeWorld (modify_files demoEnv "mod-url" "split"
      { fs := { files := [("split/lib/arm64-v8a/libmain.so", .bytes [9])], dirs := [] },
        out := [], journal := [] })).fs.files "split/lib/arm64-v8a/libmain.so" =
      some (.bytes [117, 7]) :=
  modify_files_backup_and_replace demoEnv "mod-url" "split"
    { fs := { files := [("split/lib/arm64-v8a/libmain.so", .bytes [9])], dirs := [] },
      out := [], journal := [] }
    (.bytes [9]) [117, 7] rfl rfl (fun _ => rfl)

/-- C5: when the original native library is absent at the fixed relative
path, `modify_files` still completes without raising, the replacement
download still happens (the `wget` invocation is journalled), and
afterwards only the new file is present: no backup file is created. -/
theorem modify_files_absent_original (env : Env)
    (libmain_url split_decompile_folder : String) (w : World) (dl : List Nat)
    (habs : fsExists w.fs
      (pathJoin (pathJoin split_decompile_folder "lib/arm64-v8a") "libmain.so") = false)
    (hback : getF w.fs.files
      (pathJoin (pathJoin split_decompile_folder "lib/arm64-v8a") "libmain_orig.so") = none)
    (hrc : (env.exec ["wget", "-q", libmain_url, "-O",
      pathJoin (pathJoin split_decompile_folder "lib/arm64-v8a") "libmain.so"]).returncode = 0)
    (heff : ∀ fs, env.effect ["wget", "-q", libmain_url, "-O",
        pathJoin (pathJoin split_decompile_folder "lib/arm64-v8a") "libmain.so"] fs =
      { fs with files := setF fs.files
                    (pathJoin (pathJoin split_decompile_folder "lib/arm64-v8a") "libmain.so")
                    (.bytes dl) }) :
    isErr (modify_files env libmain_url split_decompile_folder w) = false ∧
    getF (outcomeWorld (modify_files env libmain_url split_decompile_folder w)).fs.files
      (pathJoin (pathJoin split_decompile_folder "lib/arm64-v8a") "libmain.so") =
      some (.bytes dl) ∧
    getF (outcomeWorld (modify_files env libmain_url split_decompile_folder w)).fs.files
      (pathJoin (pathJoin split_decompile_folder "lib/arm64-v8a") "libmain_orig.so") =
      none ∧
    (outcomeWorld (modify_files env libmain_url split_decompile_folder w)).journal =
      w.journal ++ [["wget", "-q", libmain_url, "-O",
        pathJoin (pathJoin split_decompile_folder "lib/arm64-v8a") "libmain.so"]] := by
  have hne : pathJoin (pathJoin split_decompile_folder "lib/arm64-v8a") "libmain_orig.so" ≠
      pathJoin (pathJoin split_decompile_folder "lib/arm64-v8a") "libmain.so" :=
    pathJoin_ne _ (by decide)
  refine ⟨?_, ?_, ?_, ?_⟩ <;>
    simp only [modify_files, run_command, pr, bind, Except.bind, pure, Except.pure,
      habs, hrc, heff, Bool.false_eq_true, if_false] <;>
    simp only [ne_eq, not_true_eq_false, if_false, ite_self, eq_self_iff_true,
      not_true, isErr, outcomeWorld, ne_self_iff_false]
  · rw [getF_setF_self]
  · rw [getF_setF_ne _ _ hne, hback]

/-- Witness for C5 at concrete inputs: starting from the empty world the
operation succeeds, the new file holds the downloaded bytes, no backup
exists, and the `wget` command was journalled. -/
theorem modify_files_absent_original_witness :
    isErr (modify_files demoEnv "mod-url" "split" emptyW) = false ∧
    getF (outcomeWorld (modify_files demoEnv "mod-url" "split" emptyW)).fs.files
      "split/lib/arm64-v8a/libmain.so" = some (.bytes [117, 7]) ∧
    getF (outcomeWorld (modify_files demoEnv "mod-url" "split" emptyW)).fs.files
      "split/lib/arm64-v8a/libmain_orig.so" = none ∧
    (outcomeWorld (modify_files demoEnv "mod-url" "split" emptyW)).journal =
      [["wget", "-q", "mod-url", "-O", "split/lib/arm64-v8a/libmain.so"]] :=
  modify_files_absent_original demoEnv "mod-url" "split" emptyW [117, 7]
    rfl rfl rfl (fun _ => rfl)

/-! ## Claims C3 and C9: finalize failure behaviour -/

/-- C3: when either expected signed output file is absent,
`finalize_apks` raises a `MissingSignedArtifact` (`FileNotFoundError`)
whose message names the specific missing file, and no file is moved: the
file list — in particular the final directory's contents — is exactly as
before the call. -/
theorem finalize_apks_missing_artifact (directory : String) (w : World)
    (hmiss :
      fsExists w.fs (pathJoin directory "base_recompiled-aligned-signed.apk") = false ∨
      fsExists w.fs (pathJoin directory "split_recompiled-aligned-signed.apk") = false) :
    isErr (finalize_apks directory w) = true ∧
    ((fsExists w.fs (pathJoin directory "base_recompiled-aligned-signed.apk") = false ∧
      raisedErr (finalize_apks directory w) = some (.fileNotFoundError
        ("Missing signed base APK: " ++ pathJoin directory "base_recompiled-aligned-signed.apk"
          ++ ". Check uber-apk-signer output name.")) ∧
      strContains
        ("Missing signed base APK: " ++ pathJoin directory "base_recompiled-aligned-signed.apk"
          ++ ". Check uber-apk-signer output name.")
        (pathJoin directory "base_recompiled-aligned-signed.apk")) ∨
     (fsExists w.fs (pathJoin directory "base_recompiled-aligned-signed.apk") = true ∧
      fsExists w.fs (pathJoin directory "split_recompiled-aligned-signed.apk") = false ∧
      raisedErr (finalize_apks directory w) = some (.fileNotFoundError
        ("Missing signed split APK: " ++ pathJoin directory "split_recompiled-aligned-signed.apk"
          ++ ". Check uber-apk-signer output name.")) ∧
      strContains
        ("Missing signed split APK: " ++ pathJoin directory "split_recompiled-aligned-signed.apk"
          ++ ". Check uber-apk-signer output name.")
        (pathJoin directory "split_recompiled-aligned-signed.apk"))) ∧
    (outcomeWorld (finalize_apks directory w)).fs.files = w.fs.files := by
  have hbne : pathJoin directory "base_recompiled-aligned-signed.apk" ≠
      pathJoin directory "final" := pathJoin_ne _ (by decide)
  have hsne : pathJoin directory "split_recompiled-aligned-signed.apk" ≠
      pathJoin directory "final" := pathJoin_ne _ (by decide)
  cases hb : fsExists w.fs (pathJoin directory "base_recompiled-aligned-signed.apk") with
  | false =>
    have hb' : fsExists (osMakedirs w.fs (pathJoin directory "final"))
        (pathJoin directory "base_recompiled-aligned-signed.apk") = false := by
      rw [fsExists_osMakedirs_ne hbne]; exact hb
    have hE : finalize_apks directory w = Except.error
        (PyErr.fileNotFoundError
          ("Missing signed base APK: " ++ pathJoin directory "base_recompiled-aligned-signed.apk"
            ++ ". Check uber-apk-signer output name."),
         { fs := osMakedirs w.fs (pathJoin directory "final"),
           out := w.out ++ ["Finalizing APKs..."], journal := w.journal }) := by
      simp only [finalize_apks, pr, hb', Bool.not_false, if_true]
    refine ⟨?_, Or.inl ⟨rfl, ?_, strContains_of_eq _ _ _⟩, ?_⟩
    · rw [hE]; rfl
    · rw [hE]; rfl
    · rw [hE]
      exact osMakedirs_files w.fs (pathJoin directory "final")
  | true =>
    have hs : fsExists w.fs (pathJoin directory "split_recompiled-aligned-signed.apk") = false := by
      cases hmiss with
      | inl h => rw [hb] at h; exact absurd h (by decide)
      | inr h => exact h
    have hb' : fsExists (osMakedirs w.fs (pathJoin directory "final"))
        (pathJoin directory "base_recompiled-aligned-signed.apk") = true := by
      rw [fsExists_osMakedirs_ne hbne]; exact hb
    have hs' : fsExists (osMakedirs w.fs (pathJoin directory "final"))
        (pathJoin directory "split_recompiled-aligned-signed.apk") = false := by
      rw [fsExists_osMakedirs_ne hsne]; exact hs
    have hE : finalize_apks directory w = Except.error
        (PyErr.fileNotFoundError
          ("Missing signed split APK: " ++ pathJoin directory "split_recompiled-aligned-signed.apk"
            ++ ". Check uber-apk-signer output name."),
         { fs := osMakedirs w.fs (pathJoin directory "final"),
           out := w.out ++ ["Finalizing APKs..."], journal := w.journal }) := by
      simp only [finalize_apks, pr, hb', hs', Bool.not_false, Bool.not_true,
        Bool.false_eq_true, if_true, if_false]
    refine ⟨?_, Or.inr ⟨rfl, hs, ?_, strContains_of_eq _ _ _⟩, ?_⟩
    · rw [hE]; rfl
    · rw [hE]; rfl
    · rw [hE]
      exact osMakedirs_files w.fs (pathJoin directory "final")

/-- Witness for C3 at concrete inputs: from the empty world (both signed
files absent) Finalize raises naming the signed base APK, and the file
list is unchanged. -/
theorem finalize_apks_missing_artifact_witness :
    isErr (finalize_apks "." emptyW) = true ∧
    raisedErr (finalize_apks "." emptyW) = some (.fileNotFoundError
      "Missing signed base APK: ./base_recompiled-aligned-signed.apk. Check uber-apk-signer output name.") ∧
    (outcomeWorld (finalize_apks "." emptyW)).fs.files = [] := by
  have h := finalize_apks_missing_artifact "." emptyW (Or.inl rfl)
  refine ⟨h.1, ?_, h.2.2⟩
  cases h.2.1 with
  | inl hc => exact hc.2.1
  | inr hc => exact absurd hc.1 (by decide)

/-- C9: `finalize_apks` creates the final output directory before the
artifact checks, so even when it fails for a missing signed artifact the
final directory exists in the failure state. -/
theorem finalize_apks_dir_exists_after_failure (directory : String) (w : World)
    (hmiss :
      fsExists w.fs (pathJoin directory "base_recompiled-aligned-signed.apk") = false ∨
      fsExists w.fs (pathJoin directory "split_recompiled-aligned-signed.apk") = false) :
    isErr (finalize_apks directory w) = true ∧
    (outcomeWorld (finalize_apks directory w)).fs.dirs.contains
      (pathJoin directory "final") = true := by
  have hbne : pathJoin directory "base_recompiled-aligned-signed.apk" ≠
      pathJoin directory "final" := pathJoin_ne _ (by decide)
  have hsne : pathJoin directory "split_recompiled-aligned-signed.apk" ≠
      pathJoin directory "final" := pathJoin_ne _ (by decide)
  cases hb : fsExists w.fs (pathJoin directory "base_recompiled-aligned-signed.apk") with
  | false =>
    have hb' : fsExists (osMakedirs w.fs (pathJoin directory "final"))
        (pathJoin directory "base_recompiled-aligned-signed.apk") = false := by
      rw [fsExists_osMakedirs_ne hbne]; exact hb
    have hE : finalize_apks directory w = Except.error
        (PyErr.fileNotFoundError
          ("Missing signed base APK: " ++ pathJoin directory "base_recompiled-aligned-signed.apk"
            ++ ". Check uber-apk-signer output name."),
         { fs := osMakedirs w.fs (pathJoin directory "final"),
           out := w.out ++ ["Finalizing APKs..."], journal := w.journal }) := by
      simp only [finalize_apks, pr, hb', Bool.not_false, if_true]
    refine ⟨?_, ?_⟩
    · rw [hE]; rfl
    · rw [hE]
      exact osMakedirs_contains_self w.fs (pathJoin directory "final")
  | true =>
    have hs : fsExists w.fs (pathJoin directory "split_recompiled-aligned-signed.apk") = false := by
      cases hmiss with
      | inl h => rw [hb] at h; exact absurd h (by decide)
      | inr h => exact h
    have hb' : fsExists (osMakedirs w.fs (pathJoin directory "final"))
        (pathJoin directory "base_recompiled-aligned-signed.apk") = true := by
      rw [fsExists_osMakedirs_ne hbne]; exact hb
    have hs' : fsExists (osMakedirs w.fs (pathJoin directory "final"))
        (pathJoin directory "split_recompiled-aligned-signed.apk") = false := by
      rw [fsExists_osMakedirs_ne hsne]; exact hs
    have hE : finalize_apks directory w = Except.error
        (PyErr.fileNotFoundError
          ("Missing signed split APK: " ++ pathJoin directory "split_recompiled-aligned-signed.apk"
            ++ ". Check uber-apk-signer output name."),
         { fs := osMakedirs w.fs (pathJoin directory "final"),
           out := w.out ++ ["Finalizing APKs..."], journal := w.journal }) := by
      simp only [finalize_apks, pr, hb', hs', Bool.not_false, Bool.not_true,
        Bool.false_eq_true, if_true, if_false]
    refine ⟨?_, ?_⟩
    · rw [hE]; rfl
    · rw [hE]
      exact osMakedirs_contains_self w.fs (pathJoin directory "final")

/-- Witness for C9 at concrete inputs: failing Finalize from the empty
world in directory `out` leaves the directory `out/final` existing. -/
theorem finalize_apks_dir_exists_after_failure_witness :
    isErr (finalize_apks "out" emptyW) = true ∧
    (outcomeWorld (finalize_apks "out" emptyW)).fs.dirs.contains "out/final" = true := by
  have h := finalize_apks_dir_exists_after_failure "out" emptyW (Or.inl rfl)
  exact h

/-! ## Claims C4 and C8: missing credential in Recompile & Sign -/

theorem forall_mem_append_delta {P : List String → Prop}
    (w L : List (List String))
    (hL : ∀ cmd ∈ L, cmd.head? = some "java" → P cmd) :
    ∀ cmd ∈ w ++ L, cmd ∉ w → cmd.head? = some "java" → P cmd := by
  intro cmd hmem hnew hjava
  rcases List.mem_append.1 hmem with h | h
  · exact absurd h hnew
  · exact hL cmd h hjava

/-- C4: when the credential file does not exist at check time (after both
repackage invocations), `recompile_and_sign` fails with a
`MissingCredential` (`FileNotFoundError`) before any signing-tool
invocation: the commands run are exactly the two `apktool b` calls, and
any `java` invocation in the journal predates the stage. -/
theorem recompile_and_sign_missing_keystore (env : Env)
    (base_folder split_folder output_dir keystore_path : String) (w : World)
    (h1 : (env.exec ["apktool", "b", base_folder, "-o",
      pathJoin output_dir "base_recompiled.apk"]).returncode = 0)
    (h2 : (env.exec ["apktool", "b", split_folder, "-o",
      pathJoin output_dir "split_recompiled.apk"]).returncode = 0)
    (hks : fsExists
      (env.effect ["apktool", "b", split_folder, "-o", pathJoin output_dir "split_recompiled.apk"]
        (env.effect ["apktool", "b", base_folder, "-o", pathJoin output_dir "base_recompiled.apk"]
          w.fs)) keystore_path = false) :
    raisedErr (recompile_and_sign env base_folder split_folder output_dir keystore_path w) =
      some (.fileNotFoundError ("Keystore not found: " ++ keystore_path)) ∧
    (outcomeWorld (recompile_and_sign env base_folder split_folder output_dir
        keystore_path w)).journal =
      w.journal ++
        [["apktool", "b", base_folder, "-o", pathJoin output_dir "base_recompiled.apk"],
         ["apktool", "b", split_folder, "-o", pathJoin output_dir "split_recompiled.apk"]] ∧
    (∀ cmd ∈ (outcomeWorld (recompile_and_sign env base_folder split_folder output_dir
        keystore_path w)).journal,
      cmd.head? = some "java" → cmd ∈ w.journal) := by
  refine ⟨?_, ?_, ?_⟩ <;>
    simp only [recompile_and_sign, run_command, pr, bind, Except.bind, pure, Except.pure,
      h1, h2, hks, Bool.not_false, if_true] <;>
    simp only [ne_eq, not_true_eq_false, if_false, eq_self_iff_true, not_true, hks,
      Bool.not_false, Bool.not_true, Bool.false_eq_true, if_true,
      raisedErr, outcomeWorld, ne_self_iff_false, List.append_assoc, List.cons_append,
      List.nil_append, List.singleton_append]
  intro cmd hmem hjava
  rcases List.mem_append.1 hmem with h | h
  · exact h
  · rcases List.mem_cons.1 h with rfl | h2m
    · simp at hjava
    · rcases List.mem_cons.1 h2m with rfl | h3m
      · simp at hjava
      · exact absurd h3m (List.not_mem_nil cmd)

/-- Witness for C4 at concrete inputs: with `demoEnv`, no keystore on
disk, the stage raises `Keystore not found` and journals exactly the two
repackage commands. -/
theorem recompile_and_sign_missing_keystore_witness :
    raisedErr (recompile_and_sign demoEnv "base" "split" "." "debug.keystore" emptyW) =
      some (.fileNotFoundError "Keystore not found: debug.keystore") ∧
    (outcomeWorld (recompile_and_sign demoEnv "base" "split" "." "debug.keystore"
        emptyW)).journal =
      [["apktool", "b", "base", "-o", "./base_recompiled.apk"],
       ["apktool", "b", "split", "-o", "./split_recompiled.apk"]] := by
  have h := recompile_and_sign_missing_keystore demoEnv "base" "split" "." "debug.keystore"
    emptyW rfl rfl rfl
  exact ⟨h.1, by simpa using h.2.1⟩

/-- C8: when `recompile_and_sign` fails for a missing credential file,
the two recompiled package files have already been produced (the check
comes only after both repackage invocations), so the failure state is
not the pre-stage state. -/
theorem recompile_and_sign_artifacts_survive_failure (env : Env)
    (base_folder split_folder output_dir keystore_path : String) (w : World) (d1 d2 : Data)
    (h1 : (env.exec ["apktool", "b", base_folder, "-o",
      pathJoin output_dir "base_recompiled.apk"]).returncode = 0)
    (h2 : (env.exec ["apktool", "b", split_folder, "-o",
      pathJoin output_dir "split_recompiled.apk"]).returncode = 0)
    (hb : getF
      (env.effect ["apktool", "b", split_folder, "-o", pathJoin output_dir "split_recompiled.apk"]
        (env.effect ["apktool", "b", base_folder, "-o", pathJoin output_dir "base_recompiled.apk"]
          w.fs)).files (pathJoin output_dir "base_recompiled.apk") = some d1)
    (hsp : getF
      (env.effect ["apktool", "b", split_folder, "-o", pathJoin output_dir "split_recompiled.apk"]
        (env.effect ["apktool", "b", base_folder, "-o", pathJoin output_dir "base_recompiled.apk"]
          w.fs)).files (pathJoin output_dir "split_recompiled.apk") = some d2)
    (hks : fsExists
      (env.effect ["apktool", "b", split_folder, "-o", pathJoin output_dir "split_recompiled.apk"]
        (env.effect ["apktool", "b", base_folder, "-o", pathJoin output_dir "base_recompiled.apk"]
          w.fs)) keystore_path = false) :
    isErr (recompile_and_sign env base_folder split_folder output_dir keystore_path w) = true ∧
    raisedErr (recompile_and_sign env base_folder split_folder output_dir keystore_path w) =
      some (.fileNotFoundError ("Keystore not found: " ++ keystore_path)) ∧
    getF (outcomeWorld (recompile_and_sign env base_folder split_folder output_dir
        keystore_path w)).fs.files (pathJoin output_dir "base_recompiled.apk") = some d1 ∧
    getF (outcomeWorld (recompile_and_sign env base_folder split_folder output_dir
        keystore_path w)).fs.files (pathJoin output_dir "split_recompiled.apk") = some d2 := by
  refine ⟨?_, ?_, ?_, ?_⟩ <;>
    simp only [recompile_and_sign, run_command, pr, bind, Except.bind, pure, Except.pure,
      h1, h2, hks, Bool.not_false, if_true] <;>
    simp only [ne_eq, not_true_eq_false, if_false, eq_self_iff_true, not_true, hks,
      Bool.not_false, Bool.not_true, Bool.false_eq_true, if_true,
      isErr, raisedErr, outcomeWorld, ne_self_iff_false]
  · exact hb
  · exact hsp

/-- Witness for C8 at concrete inputs: after the failing run under
`demoEnv` both recompiled packages are on disk. -/
theorem recompile_and_sign_artifacts_survive_failure_witness :
    isErr (recompile_and_sign demoEnv "base" "split" "." "debug.keystore" emptyW) = true ∧
    raisedErr (recompile_and_sign demoEnv "base" "split" "." "debug.keystore" emptyW) =
      some (.fileNotFoundError "Keystore not found: debug.keystore") ∧
    getF (outcomeWorld (recompile_and_sign demoEnv "base" "split" "." "debug.keystore"
        emptyW)).fs.files "./base_recompiled.apk" = some (.bytes [0]) ∧
    getF (outcomeWorld (recompile_and_sign demoEnv "base" "split" "." "debug.keystore"
        emptyW)).fs.files "./split_recompiled.apk" = some (.bytes [0]) :=
  recompile_and_sign_artifacts_survive_failure demoEnv "base" "split" "." "debug.keystore"
    emptyW (.bytes [0]) (.bytes [0]) rfl rfl rfl rfl rfl

/-! ## Claim C10: fixed signing credentials -/

/-- C10: in every run of `recompile_and_sign`, every signing-tool
invocation the stage issues (a journalled `java` command that was not in
the journal before the stage) carries the fixed credential
sub-parameters: alias `androiddebugkey`, store password `android` and
key password `android` — regardless of the flags, the filesystem, or the
credential file's contents. -/
theorem recompile_and_sign_fixed_credentials (env : Env)
    (base_folder split_folder output_dir keystore_path : String) (w : World) :
    ∀ cmd ∈ (outcomeWorld (recompile_and_sign env base_folder split_folder output_dir
        keystore_path w)).journal,
      cmd ∉ w.journal → cmd.head? = some "java" →
      cmd.take 4 = ["java", "-jar", "uber-apk-signer.jar", "--apks"] ∧
      cmd.drop 5 = ["--ks", keystore_path, "--ksAlias", "androiddebugkey",
        "--ksPass", "android", "--ksKeyPass", "android"] := by
  by_cases hc1 : (env.exec ["apktool", "b", base_folder, "-o",
      pathJoin output_dir "base_recompiled.apk"]).returncode = 0
  case neg =>
    have hJ : (outcomeWorld (recompile_and_sign env base_folder split_folder output_dir
        keystore_path w)).journal = w.journal ++
        [["apktool", "b", base_folder, "-o", pathJoin output_dir "base_recompiled.apk"]] := by
      simp only [recompile_and_sign, run_command, pr, bind, Except.bind, pure, Except.pure,
        hc1, ne_eq, not_false_eq_true, if_true, outcomeWorld]
    rw [hJ]
    refine forall_mem_append_delta _ _ ?_
    intro cmd hcm hjava
    rcases List.mem_cons.1 hcm with rfl | hcm2
    · simp at hjava
    · exact absurd hcm2 (List.not_mem_nil cmd)
  case pos =>
  by_cases hc2 : (env.exec ["apktool", "b", split_folder, "-o",
      pathJoin output_dir "split_recompiled.apk"]).returncode = 0
  case neg =>
    have hJ : (outcomeWorld (recompile_and_sign env base_folder split_folder output_dir
        keystore_path w)).journal = w.journal ++
        [["apktool", "b", base_folder, "-o", pathJoin output_dir "base_recompiled.apk"],
         ["apktool", "b", split_folder, "-o", pathJoin output_dir "split_recompiled.apk"]] := by
      simp only [recompile_and_sign, run_command, pr, bind, Except.bind, pure, Except.pure,
        hc1, hc2, ne_eq, not_false_eq_true, if_true, ne_self_iff_false, if_false,
        not_true_eq_false, eq_self_iff_true, not_true, outcomeWorld, List.append_assoc,
        List.cons_append, List.nil_append, List.singleton_append]
    rw [hJ]
    refine forall_mem_append_delta _ _ ?_
    intro cmd hcm hjava
    rcases List.mem_cons.1 hcm with rfl | hcm2
    · simp at hjava
    · rcases List.mem_cons.1 hcm2 with rfl | hcm3
      · simp at hjava
      · exact absurd hcm3 (List.not_mem_nil cmd)
  case pos =>
  cases hk : fsExists
      (env.effect ["apktool", "b", split_folder, "-o", pathJoin output_dir "split_recompiled.apk"]
        (env.effect ["apktool", "b", base_folder, "-o", pathJoin output_dir "base_recompiled.apk"]
          w.fs)) keystore_path with
  | false =>
    have hJ : (outcomeWorld (recompile_and_sign env base_folder split_folder output_dir
        keystore_path w)).journal = w.journal ++
        [["apktool", "b", base_folder, "-o", pathJoin output_dir "base_recompiled.apk"],
         ["apktool", "b", split_folder, "-o", pathJoin output_dir "split_recompiled.apk"]] := by
      simp only [recompile_and_sign, run_command, pr, bind, Except.bind, pure, Except.pure,
        hc1, hc2, hk, ne_eq, not_false_eq_true, if_true, ne_self_iff_false, if_false,
        not_true_eq_false, eq_self_iff_true, not_true, Bool.not_false, outcomeWorld,
        List.append_assoc, List.cons_append, List.nil_append, List.singleton_append]
    rw [hJ]
    refine forall_mem_append_delta _ _ ?_
    intro cmd hcm hjava
    rcases List.mem_cons.1 hcm with rfl | hcm2
    · simp at hjava
    · rcases List.mem_cons.1 hcm2 with rfl | hcm3
      · simp at hjava
      · exact absurd hcm3 (List.not_mem_nil cmd)
  | true =>
    by_cases hj1 : (env.exec ["java", "-jar", "uber-apk-signer.jar", "--apks",
        pathJoin output_dir "base_recompiled.apk", "--ks", keystore_path,
        "--ksAlias", "androiddebugkey", "--ksPass", "android",
        "--ksKeyPass", "android"]).returncode = 0
    case neg =>
      have hJ : (outcomeWorld (recompile_and_sign env base_folder split_folder output_dir
          keystore_path w)).journal = w.journal ++
          [["apktool", "b", base_folder, "-o", pathJoin output_dir "base_recompiled.apk"],
           ["apktool", "b", split_folder, "-o", pathJoin output_dir "split_recompiled.apk"],
           ["java", "-jar", "uber-apk-signer.jar", "--apks",
            pathJoin output_dir "base_recompiled.apk", "--ks", keystore_path,
            "--ksAlias", "androiddebugkey", "--ksPass", "android",
            "--ksKeyPass", "android"]] := by
        simp only [recompile_and_sign, run_command, pr, bind, Except.bind, pure, Except.pure,
          hc1, hc2, hk, hj1, ne_eq, not_false_eq_true, if_true, ne_self_iff_false, if_false,
          not_true_eq_false, eq_self_iff_true, not_true, Bool.not_true, Bool.false_eq_true,
          outcomeWorld, List.append_assoc, List.cons_append, List.nil_append,
          List.singleton_append]
      rw [hJ]
      refine forall_mem_append_delta _ _ ?_
      intro cmd hcm hjava
      rcases List.mem_cons.1 hcm with rfl | hcm2
      · simp at hjava
      · rcases List.mem_cons.1 hcm2 with rfl | hcm3
        · simp at hjava
        · rcases List.mem_cons.1 hcm3 with rfl | hcm4
          · exact ⟨rfl, rfl⟩
          · exact absurd hcm4 (List.not_mem_nil cmd)
    case pos =>
      by_cases hj2 : (env.exec ["java", "-jar", "uber-apk-signer.jar", "--apks",
          pathJoin output_dir "split_recompiled.apk", "--ks", keystore_path,
          "--ksAlias", "androiddebugkey", "--ksPass", "android",
          "--ksKeyPass", "android"]).returncode = 0
      all_goals
        have hJ : (outcomeWorld (recompile_and_sign env base_folder split_folder output_dir
            keystore_path w)).journal = w.journal ++
            [["apktool", "b", base_folder, "-o", pathJoin output_dir "base_recompiled.apk"],
             ["apktool", "b", split_folder, "-o", pathJoin output_dir "split_recompiled.apk"],
             ["java", "-jar", "uber-apk-signer.jar", "--apks",
              pathJoin output_dir "base_recompiled.apk", "--ks", keystore_path,
              "--ksAlias", "androiddebugkey", "--ksPass", "android",
              "--ksKeyPass", "android"],
             ["java", "-jar", "uber-apk-signer.jar", "--apks",
              pathJoin output_dir "split_recompiled.apk", "--ks", keystore_path,
              "--ksAlias", "androiddebugkey", "--ksPass", "android",
              "--ksKeyPass", "android"]] := by
          simp only [recompile_and_sign, run_command, pr, bind, Except.bind, pure, Except.pure,
            hc1, hc2, hk, hj1, hj2, ne_eq, not_false_eq_true, if_true, ne_self_iff_false,
            if_false, not_true_eq_false, eq_self_iff_true, not_true, Bool.not_true,
            Bool.false_eq_true, outcomeWorld, List.append_assoc, List.cons_append,
            List.nil_append, List.singleton_append]
      all_goals rw [hJ]
      all_goals refine forall_mem_append_delta _ _ ?_
      all_goals intro cmd hcm hjava
      all_goals rcases List.mem_cons.1 hcm with rfl | hcm2
      · simp at hjava
      · rcases List.mem_cons.1 hcm2 with rfl | hcm3
        · simp at hjava
        · rcases List.mem_cons.1 hcm3 with rfl | hcm4
          · exact ⟨rfl, rfl⟩
          · rcases List.mem_cons.1 hcm4 with rfl | hcm5
            · exact ⟨rfl, rfl⟩
            · exact absurd hcm5 (List.not_mem_nil cmd)
      · simp at hjava
      · rcases List.mem_cons.1 hcm2 with rfl | hcm3
        · simp at hjava
        · rcases List.mem_cons.1 hcm3 with rfl | hcm4
          · exact ⟨rfl, rfl⟩
          · rcases List.mem_cons.1 hcm4 with rfl | hcm5
            · exact ⟨rfl, rfl⟩
            · exact absurd hcm5 (List.not_mem_nil cmd)

/-- Witness for C10: extracting the guarantee for the base-package
signing command of a concrete successful run (keystore on disk,
`demoEnv`). -/
theorem recompile_and_sign_fixed_credentials_witness :
    List.take 4 ["java", "-jar", "uber-apk-signer.jar", "--apks", "./base_recompiled.apk",
        "--ks", "debug.keystore", "--ksAlias", "androiddebugkey", "--ksPass", "android",
        "--ksKeyPass", "android"] =
      ["java", "-jar", "uber-apk-signer.jar", "--apks"] ∧
    List.drop 5 ["java", "-jar", "uber-apk-signer.jar", "--apks", "./base_recompiled.apk",
        "--ks", "debug.keystore", "--ksAlias", "androiddebugkey", "--ksPass", "android",
        "--ksKeyPass", "android"] =
      ["--ks", "debug.keystore", "--ksAlias", "androiddebugkey", "--ksPass", "android",
       "--ksKeyPass", "android"] := by
  refine recompile_and_sign_fixed_credentials demoEnv "base" "split" "." "debug.keystore"
    { fs := { files := [("debug.keystore", .bytes [2])], dirs := [] },
      out := [], journal := [] }
    ["java", "-jar", "uber-apk-signer.jar", "--apks", "./base_recompiled.apk",
     "--ks", "debug.keystore", "--ksAlias", "androiddebugkey", "--ksPass", "android",
     "--ksKeyPass", "android"] ?_ ?_ rfl
  · show _ ∈ (outcomeWorld (recompile_and_sign demoEnv "base" "split" "." "debug.keystore"
      { fs := { files := [("debug.keystore", .bytes [2])], dirs := [] },
        out := [], journal := [] })).journal
    refine (show (outcomeWorld (recompile_and_sign demoEnv "base" "split" "." "debug.keystore"
      { fs := { files := [("debug.keystore", .bytes [2])], dirs := [] },
        out := [], journal := [] })).journal =
        [["apktool", "b", "base", "-o", "./base_recompiled.apk"],
         ["apktool", "b", "split", "-o", "./split_recompiled.apk"],
         ["java", "-jar", "uber-apk-signer.jar", "--apks", "./base_recompiled.apk",
          "--ks", "debug.keystore", "--ksAlias", "androiddebugkey", "--ksPass", "android",
          "--ksKeyPass", "android"],
         ["java", "-jar", "uber-apk-signer.jar", "--apks", "./split_recompiled.apk",
          "--ks", "debug.keystore", "--ksAlias", "androiddebugkey", "--ksPass", "android",
          "--ksKeyPass", "android"]] from rfl) ▸ ?_
    simp
  · intro hmem
    simp at hmem

/-! ## Claim C7: top-level exit codes -/

/-- C7: `main` exits with code 0 when all six stages succeed (the `try`
body returns), and with code 1 when any stage raises, with the error's
description printed to standard output as the final line. -/
theorem main_exit_codes (env : Env)
    (baseapk_dlink splitapk_dlink libmain_url keystore_url : String) (w : World) :
    (∀ w', runPipeline env baseapk_dlink splitapk_dlink libmain_url keystore_url
        "./final" "umamusume.xapk" w = .ok w' →
      main env baseapk_dlink splitapk_dlink libmain_url keystore_url w = (0, w')) ∧
    (∀ e w', runPipeline env baseapk_dlink splitapk_dlink libmain_url keystore_url
        "./final" "umamusume.xapk" w = .error (e, w') →
      (main env baseapk_dlink splitapk_dlink libmain_url keystore_url w).1 = 1 ∧
      (main env baseapk_dlink splitapk_dlink libmain_url keystore_url w).2.out =
        w'.out ++ ["An error occurred: " ++ errMsg e]) := by
  constructor
  · intro w' h
    simp [main, h]
  · intro e w' h
    simp [main, h, pr]

/-- Witness for C7 at concrete inputs: under `demoEnv` every stage
succeeds and the process exit code is 0; under `failEnv` the very first
command fails and the exit code is 1. -/
theorem main_exit_codes_witness :
    (main demoEnv "u1" "u2" "u3" "u4" emptyW).1 = 0 ∧
    (main failEnv "u1" "u2" "u3" "u4" emptyW).1 = 1 := by
  constructor
  · obtain ⟨w', hw⟩ : ∃ w', runPipeline demoEnv "u1" "u2" "u3" "u4" "./final"
        "umamusume.xapk" emptyW = .ok w' := ⟨_, rfl⟩
    rw [(main_exit_codes demoEnv "u1" "u2" "u3" "u4" emptyW).1 w' hw]
  · obtain ⟨e, w', hw⟩ : ∃ e w', runPipeline failEnv "u1" "u2" "u3" "u4" "./final"
        "umamusume.xapk" emptyW = .error (e, w') := ⟨_, _, rfl⟩
    exact ((main_exit_codes failEnv "u1" "u2" "u3" "u4" emptyW).2 e w' hw).1

/-! ## Claim C6: the Bundle operation -/

theorem zipEntries_cons (folder r : String) (files : List (String × Data))
    (L : List (String × List (String × Data))) :
    zipEntries folder ((r, files) :: L) =
      files.map (fun fc => (relpath (pathJoin r fc.1) folder, fc.2)) ++
        zipEntries folder L := by
  simp [zipEntries]

theorem zipEntries_append (folder : String)
    (xs ys : List (String × List (String × Data))) :
    zipEntries folder (xs ++ ys) = zipEntries folder xs ++ zipEntries folder ys := by
  simp [zipEntries, List.flatMap_append]

mutual
theorem zipEntries_walk (folder q : String) : (t : Tree) →
    zipEntries folder (Tree.walk (pathJoin folder q) t) =
      (Tree.relFiles t).map (fun pc => (pathJoin q pc.1, pc.2))
  | .node files subs => by
    rw [Tree.walk, zipEntries_cons, zipEntries_walkAll folder q subs, Tree.relFiles,
      List.map_append]
    congr 1
    simp only [pathJoin_assoc]
    simp only [relpath_pathJoin]
    simp only [pathJoin]
theorem zipEntries_walkAll (folder q : String) : (f : Forest) →
    zipEntries folder (Forest.walkAll (pathJoin folder q) f) =
      (Forest.relFilesAll f).map (fun pc => (pathJoin q pc.1, pc.2))
  | .nil => by simp [Forest.walkAll, Forest.relFilesAll, zipEntries]
  | .cons d t rest => by
    rw [Forest.walkAll, zipEntries_append, zipEntries_walkAll folder q rest]
    rw [show pathJoin (pathJoin folder q) d = pathJoin folder (pathJoin q d) from
      pathJoin_assoc folder q d]
    rw [zipEntries_walk folder (pathJoin q d) t, Forest.relFilesAll, List.map_append,
      List.map_map]
    simp [Function.comp, pathJoin, String.append_assoc]
end

theorem zipEntries_walkAll_top (folder : String) : (f : Forest) →
    zipEntries folder (Forest.walkAll folder f) = Forest.relFilesAll f
  | .nil => by simp [Forest.walkAll, Forest.relFilesAll, zipEntries]
  | .cons d t rest => by
    rw [Forest.walkAll, zipEntries_append, zipEntries_walk folder d t,
      zipEntries_walkAll_top folder rest, Forest.relFilesAll]
    simp [pathJoin]

mutual
theorem relFiles_length : (t : Tree) → (Tree.relFiles t).length = Tree.countFiles t
  | .node files subs => by
    rw [Tree.relFiles, Tree.countFiles, List.length_append, relFilesAll_length subs]
theorem relFilesAll_length : (f : Forest) →
    (Forest.relFilesAll f).length = Forest.countFilesAll f
  | .nil => rfl
  | .cons d t rest => by
    rw [Forest.relFilesAll, Forest.countFilesAll, List.length_append, List.length_map,
      relFiles_length t, relFilesAll_length rest]
end

/-- C6: for every directory tree, the archive `create_xapk` writes holds
exactly one entry per file of the tree — `countFiles` many — and each
entry's name is the file's path relative to the bundled directory with
the file's exact contents, whatever the folder path is. -/
theorem create_xapk_bundle (folder_path : String) (t : Tree) :
    create_xapk folder_path t = Tree.relFiles t ∧
    (create_xapk folder_path t).length = Tree.countFiles t := by
  have hmain : create_xapk folder_path t = Tree.relFiles t := by
    cases t with
    | node files subs =>
      rw [create_xapk, Tree.walk, zipEntries_cons, zipEntries_walkAll_top, Tree.relFiles]
      congr 1
      simp only [relpath_pathJoin]
      simp
  refine ⟨hmain, ?_⟩
  rw [hmain]
  exact relFiles_length t

end UPatcher
